import Mathlib

/-!
Shallow embedding of the macsec_packet_analyzer core (protocol parsers,
protocol registry, flow tracker, replay capture source) from the repository
vweiss960/rust_lessons, together with proofs about the spec's claims.

Machine integers are modelled as Nat with explicit `% 2^32` where the Rust
code performs wrapping arithmetic (`wrapping_add`, `wrapping_sub` on u32).
Byte buffers are `List Nat` (each element a byte value); all buffer reads in
the source occur behind explicit length checks, so out-of-range reads
(which would panic in Rust) are modelled with a default of 0 and are
unreachable under the length hypotheses carried by the theorems.
Wall-clock timestamps (`SystemTime`, `Instant`) are abstract instants
modelled as Nat microseconds; `SystemTime::now()` / `Instant::now()` become
explicit `now` parameters.
-/

deriving instance DecidableEq for Except

set_option maxRecDepth 4000

/-- 2^32, the modulus of u32 arithmetic. -/
def U32LIM : Nat := 4294967296

/-- u32::MAX. -/
def U32MAX : Nat := 4294967295

/-- u32::wrapping_add on values below 2^32. -/
def wrapAdd (a b : Nat) : Nat := (a + b) % U32LIM

/-- u32::wrapping_sub on values below 2^32. -/
def wrapSub (a b : Nat) : Nat := (a + U32LIM - b % U32LIM) % U32LIM

/-- std::net::IpAddr. The parsers of this repository only ever construct
V4 addresses; V6 is carried as its eight 16-bit segments. -/
inductive IpAddr where
  | v4 (a b c d : Nat)
  | v6 (segs : List Nat)
deriving DecidableEq

/-- types.rs FlowId: tagged flow identifier with three variants. -/
inductive FlowId where
  | MACsec (sci : Nat)
  | IPsec (spi : Nat) (dst_ip : IpAddr)
  | GenericL3 (src_ip dst_ip : IpAddr) (src_port dst_port protocol : Nat)
deriving DecidableEq

/-- types.rs SequenceInfo: the registry's per-packet output. -/
structure SequenceInfo where
  sequence_number : Nat
  flow_id : FlowId
  payload_length : Nat
deriving DecidableEq

/-- types.rs AnalyzedPacket: SequenceInfo plus capture timestamp. -/
structure AnalyzedPacket where
  sequence_number : Nat
  flow_id : FlowId
  timestamp : Nat
  payload_length : Nat
deriving DecidableEq

/-- types.rs SequenceGap. -/
structure SequenceGap where
  flow_id : FlowId
  expected : Nat
  received : Nat
  gap_size : Nat
  timestamp : Nat
deriving DecidableEq

/-- error.rs ParseError. -/
inductive ParseError where
  | PacketTooShort
  | InvalidFormat (msg : String)
deriving DecidableEq

/-- error.rs CaptureError. -/
inductive CaptureError where
  | OpenFailed (msg : String)
  | ReadFailed (msg : String)
  | NoMorePackets
  | UnsupportedOperation (msg : String)
  | XdpNotAvailable (msg : String)
  | AfPacketError (msg : String)
  | DatabaseError (msg : String)
deriving DecidableEq

/-- Read byte i of a buffer. All reads in the embedded code sit behind the
source's length checks, so the default 0 is never observable there. -/
def byte (data : List Nat) (i : Nat) : Nat := data.getD i 0

/-- Big-endian u16 at offset i (u16::from_be_bytes). -/
def be2 (data : List Nat) (i : Nat) : Nat := byte data i * 256 + byte data (i + 1)

/-- Big-endian u32 at offset i (u32::from_be_bytes / BigEndian::read_u32). -/
def be4 (data : List Nat) (i : Nat) : Nat :=
  ((byte data i * 256 + byte data (i + 1)) * 256 + byte data (i + 2)) * 256 + byte data (i + 3)

/-- Big-endian u64 at offset i (BigEndian::read_u64). -/
def be8 (data : List Nat) (i : Nat) : Nat := be4 data i * U32LIM + be4 data (i + 4)

/-- macsec.rs MACsecParser::matches: at least 14 bytes and EtherType 0x88E5. -/
def MACsecParser.matches (data : List Nat) : Bool :=
  if data.length < 14 then false
  else byte data 12 == 0x88 && byte data 13 == 0xE5

/-- macsec.rs MACsecParser::parse_sequence. -/
def MACsecParser.parse_sequence (data : List Nat) :
    Except ParseError (Option SequenceInfo) :=
  if !(MACsecParser.matches data) then .ok none
  else if data.length < 30 then .error .PacketTooShort
  else
    let packet_number := be4 data 16
    let sci := be8 data 20
    let payload_length := if data.length > 28 + 16 then data.length - 28 - 16 else 0
    .ok (some { sequence_number := packet_number
                flow_id := .MACsec sci
                payload_length := payload_length })

/-- ipsec.rs IPsecParser::matches: 42 bytes, IPv4 EtherType, IP protocol 50. -/
def IPsecParser.matches (data : List Nat) : Bool :=
  if data.length < 42 then false
  else if data.length < 14 || !(byte data 12 == 0x08) || !(byte data 13 == 0x00) then false
  else if data.length < 24 then false
  else byte data 23 == 50

/-- ipsec.rs IPsecParser::parse_sequence. `& 0x0f` on a byte is `% 16`. -/
def IPsecParser.parse_sequence (data : List Nat) :
    Except ParseError (Option SequenceInfo) :=
  if !(IPsecParser.matches data) then .ok none
  else if data.length < 42 then .error .PacketTooShort
  else
    let ihl := byte data 14 % 16 * 4
    let ip_header_end := 14 + ihl
    if data.length < ip_header_end then .error .PacketTooShort
    else
      let dst_ip := IpAddr.v4 (byte data 30) (byte data 31) (byte data 32) (byte data 33)
      let esp_payload := data.drop ip_header_end
      if esp_payload.length < 8 then .error .PacketTooShort
      else
        let spi := be4 esp_payload 0
        let sequence_number := be4 esp_payload 4
        let payload_length := esp_payload.length - 8
        .ok (some { sequence_number := sequence_number
                    flow_id := .IPsec spi dst_ip
                    payload_length := payload_length })

/-- generic_l3.rs GenericL3Parser::matches: 42 bytes, IPv4, protocol 6 or 17. -/
def GenericL3Parser.matches (data : List Nat) : Bool :=
  if data.length < 42 then false
  else if !(byte data 12 == 0x08) || !(byte data 13 == 0x00) then false
  else byte data 23 == 6 || byte data 23 == 17

/-- generic_l3.rs GenericL3Parser::parse_sequence. TCP frames carry the real
TCP sequence number; UDP frames return Ok(None). -/
def GenericL3Parser.parse_sequence (data : List Nat) :
    Except ParseError (Option SequenceInfo) :=
  if !(GenericL3Parser.matches data) then .ok none
  else if data.length < 42 then .error .PacketTooShort
  else
    let ihl := byte data 14 % 16 * 4
    let ip_header_end := 14 + ihl
    if data.length < ip_header_end then .error .PacketTooShort
    else
      let protocol := byte data 23
      let src_ip := IpAddr.v4 (byte data 26) (byte data 27) (byte data 28) (byte data 29)
      let dst_ip := IpAddr.v4 (byte data 30) (byte data 31) (byte data 32) (byte data 33)
      let transport_payload := data.drop ip_header_end
      if transport_payload.length < 4 then .error .PacketTooShort
      else
        let src_port := be2 transport_payload 0
        let dst_port := be2 transport_payload 2
        if protocol = 6 then
          if transport_payload.length < 8 then .error .PacketTooShort
          else
            let sequence_number := be4 transport_payload 4
            let tcp_header_len :=
              if transport_payload.length > 12 then byte transport_payload 12 / 16 * 4 else 20
            let payload_length :=
              if transport_payload.length > tcp_header_len then
                transport_payload.length - tcp_header_len
              else 0
            .ok (some { sequence_number := sequence_number
                        flow_id := .GenericL3 src_ip dst_ip src_port dst_port protocol
                        payload_length := payload_length })
        else if protocol = 17 then .ok none
        else .ok none

/-- registry.rs ProtocolRegistry state: flow cache plus metric counters.
The parser vector is fixed at construction (MACsec, IPsec, GenericL3 in
priority order), so cached parser indices are represented as Fin 3 —
exactly the values the source ever inserts. -/
structure ProtocolRegistry where
  flow_cache : List (FlowId × Fin 3)
  cache_hits : Nat
  cache_misses : Nat
  ethertype_fast_path : Nat
  unknown_protocol : Nat

/-- registry.rs ProtocolRegistry::new. -/
def ProtocolRegistry.new : ProtocolRegistry :=
  { flow_cache := [], cache_hits := 0, cache_misses := 0
    ethertype_fast_path := 0, unknown_protocol := 0 }

/-- Dispatch on a cached parser index (parsers[idx].parser.parse_sequence). -/
def parserAt (idx : Fin 3) (data : List Nat) : Except ParseError (Option SequenceInfo) :=
  if idx.val = 0 then MACsecParser.parse_sequence data
  else if idx.val = 1 then IPsecParser.parse_sequence data
  else GenericL3Parser.parse_sequence data

/-- HashMap::insert on the flow cache (replacing semantics). -/
def cacheInsert (m : List (FlowId × Fin 3)) (k : FlowId) (v : Fin 3) :
    List (FlowId × Fin 3) :=
  (k, v) :: m.filter (fun p => decide (p.1 ≠ k))

/-- HashMap::remove on the flow cache. -/
def cacheEvict (m : List (FlowId × Fin 3)) (k : FlowId) : List (FlowId × Fin 3) :=
  m.filter (fun p => decide (p.1 ≠ k))

/-- HashMap::get on the flow cache. -/
def cacheLookup (m : List (FlowId × Fin 3)) (k : FlowId) : Option (Fin 3) :=
  match m with
  | [] => none
  | (k0, v0) :: rest => if k0 = k then some v0 else cacheLookup rest k

/-- registry.rs ProtocolRegistry::extract_provisional_flow_id. -/
def ProtocolRegistry.extract_provisional_flow_id (data : List Nat) : Option FlowId :=
  if data.length < 34 then none
  else
    let ip_protocol := byte data 23
    if ip_protocol = 50 then
      if data.length < 42 then none
      else
        let ihl := byte data 14 % 16 * 4
        let ip_header_end := 14 + ihl
        if data.length < ip_header_end + 4 then none
        else
          let dst_ip := IpAddr.v4 (byte data 30) (byte data 31) (byte data 32) (byte data 33)
          let esp_payload := data.drop ip_header_end
          some (.IPsec (be4 esp_payload 0) dst_ip)
    else if ip_protocol = 6 ∨ ip_protocol = 17 then
      if data.length < 42 then none
      else
        let ihl := byte data 14 % 16 * 4
        let ip_header_end := 14 + ihl
        if data.length < ip_header_end + 4 then none
        else
          let src_ip := IpAddr.v4 (byte data 26) (byte data 27) (byte data 28) (byte data 29)
          let dst_ip := IpAddr.v4 (byte data 30) (byte data 31) (byte data 32) (byte data 33)
          let transport := data.drop ip_header_end
          some (.GenericL3 src_ip dst_ip (be2 transport 0) (be2 transport 2) ip_protocol)
    else none

/-- Tier 3 of registry.rs detect_and_parse: full detection over the fixed
priority-ordered parser vector (MACsec = 0, IPsec = 1, GenericL3 = 2),
caching the first parser that returns Ok(Some). -/
def ProtocolRegistry.tier3 (rc : ProtocolRegistry) (data : List Nat) :
    Except ParseError (Option SequenceInfo) × ProtocolRegistry :=
  let rc := { rc with cache_misses := rc.cache_misses + 1 }
  match MACsecParser.parse_sequence data with
  | .error e => (.error e, rc)
  | .ok (some info) =>
      (.ok (some info), { rc with flow_cache := cacheInsert rc.flow_cache info.flow_id 0 })
  | .ok none =>
    match IPsecParser.parse_sequence data with
    | .error e => (.error e, rc)
    | .ok (some info) =>
        (.ok (some info), { rc with flow_cache := cacheInsert rc.flow_cache info.flow_id 1 })
    | .ok none =>
      match GenericL3Parser.parse_sequence data with
      | .error e => (.error e, rc)
      | .ok (some info) =>
          (.ok (some info), { rc with flow_cache := cacheInsert rc.flow_cache info.flow_id 2 })
      | .ok none =>
          (.ok none, { rc with unknown_protocol := rc.unknown_protocol + 1 })

/-- registry.rs ProtocolRegistry::detect_and_parse, the three-tier dispatch. -/
def ProtocolRegistry.detect_and_parse (rc : ProtocolRegistry) (data : List Nat) :
    Except ParseError (Option SequenceInfo) × ProtocolRegistry :=
  if data.length < 14 then (.ok none, rc)
  else
    let ethertype := be2 data 12
    if ethertype = 0x88E5 then
      (MACsecParser.parse_sequence data,
       { rc with ethertype_fast_path := rc.ethertype_fast_path + 1 })
    else if ethertype ≠ 0x0800 then
      (.ok none, { rc with unknown_protocol := rc.unknown_protocol + 1 })
    else
      match ProtocolRegistry.extract_provisional_flow_id data with
      | none => rc.tier3 data
      | some flow_id =>
        match cacheLookup rc.flow_cache flow_id with
        | none => rc.tier3 data
        | some idx =>
          let rc := { rc with cache_hits := rc.cache_hits + 1 }
          match parserAt idx data with
          | .error e => (.error e, rc)
          | .ok (some info) => (.ok (some info), rc)
          | .ok none =>
              ProtocolRegistry.tier3
                { rc with flow_cache := cacheEvict rc.flow_cache flow_id } data

/-- flow.rs FlowState: per-flow tracker state. The reorder buffer models the
BTreeMap as a key-sorted association list. `previous_timestamp` exists in the
source but is never written after initialization; it is kept for fidelity. -/
structure FlowState where
  highest_sequence : Option Nat
  reorder_buffer : List (Nat × AnalyzedPacket)
  expected_sequence : Option Nat
  packets_received : Nat
  gaps : List SequenceGap
  first_sequence : Option Nat
  last_sequence : Option Nat
  min_gap : Option Nat
  max_gap : Option Nat
  total_bytes : Nat
  first_timestamp : Option Nat
  last_timestamp : Option Nat
  previous_timestamp : Option Nat
  min_inter_arrival_us : Option Nat
  max_inter_arrival_us : Option Nat
  total_inter_arrival_us : Nat
  inter_arrival_count : Nat
  protocol_distribution : List (Nat × Nat)
deriving DecidableEq

/-- flow.rs FlowState::new. -/
def FlowState.new : FlowState :=
  { highest_sequence := none, reorder_buffer := [], expected_sequence := none
    packets_received := 0, gaps := [], first_sequence := none, last_sequence := none
    min_gap := none, max_gap := none, total_bytes := 0
    first_timestamp := none, last_timestamp := none, previous_timestamp := none
    min_inter_arrival_us := none, max_inter_arrival_us := none
    total_inter_arrival_us := 0, inter_arrival_count := 0, protocol_distribution := [] }

/-- BTreeMap::insert on the reorder buffer (sorted by key, replace on equal). -/
def btreeInsert (m : List (Nat × AnalyzedPacket)) (k : Nat) (v : AnalyzedPacket) :
    List (Nat × AnalyzedPacket) :=
  match m with
  | [] => [(k, v)]
  | (k0, v0) :: rest =>
      if k < k0 then (k, v) :: (k0, v0) :: rest
      else if k = k0 then (k, v) :: rest
      else (k0, v0) :: btreeInsert rest k v

/-- BTreeMap::contains_key on the reorder buffer. -/
def btreeContains (m : List (Nat × AnalyzedPacket)) (k : Nat) : Bool :=
  m.any (fun p => p.1 == k)

/-- HashMap<u8, u64> entry(..).or_insert(0) += 1 on protocol_distribution. -/
def bumpAssoc (m : List (Nat × Nat)) (k : Nat) : List (Nat × Nat) :=
  match m with
  | [] => [(k, 1)]
  | (k0, v0) :: rest =>
      if k0 = k then (k0, v0 + 1) :: rest else (k0, v0) :: bumpAssoc rest k

/-- flow.rs FlowTracker (synchronous variant): flow map plus the configured
reorder window size (a field the source marks dead_code and never reads). -/
structure FlowTracker where
  flows : List (FlowId × FlowState)
  reorder_window_size : Nat
deriving DecidableEq

/-- HashMap::get on the flow map. -/
def flowsLookup (m : List (FlowId × FlowState)) (k : FlowId) : Option FlowState :=
  match m with
  | [] => none
  | (k0, v0) :: rest => if k0 = k then some v0 else flowsLookup rest k

/-- Write-back of one flow's state (entry().or_insert followed by get_mut). -/
def flowsUpdate (m : List (FlowId × FlowState)) (k : FlowId) (v : FlowState) :
    List (FlowId × FlowState) :=
  match m with
  | [] => [(k, v)]
  | (k0, v0) :: rest =>
      if k0 = k then (k, v) :: rest else (k0, v0) :: flowsUpdate rest k v

/-- flow.rs FlowTracker::with_window_size. -/
def FlowTracker.with_window_size (window_size : Nat) : FlowTracker :=
  { flows := [], reorder_window_size := window_size }

/-- flow.rs FlowTracker::new (default reorder window 32). -/
def FlowTracker.new : FlowTracker := FlowTracker.with_window_size 32

/-- True for the GenericL3 FlowId variant. -/
def FlowId.isGenericL3 : FlowId → Bool
  | .GenericL3 _ _ _ _ _ => true
  | _ => false

/-- The statistics block of flow.rs process_packet (lines applied
unconditionally to every accepted packet before any sequence logic):
packet count, byte count, inter-arrival accumulators, timestamps, and the
GenericL3 protocol distribution. -/
def FlowState.statsUpdate (st : FlowState) (packet : AnalyzedPacket) (flow_id : FlowId) :
    FlowState :=
  let st := { st with packets_received := st.packets_received + 1
                      total_bytes := st.total_bytes + packet.payload_length }
  let st :=
    match st.last_timestamp with
    | some previous =>
        if previous ≤ packet.timestamp then
          let duration_us := packet.timestamp - previous
          let min' :=
            match st.min_inter_arrival_us with
            | none => some duration_us
            | some m => if duration_us < m then some duration_us else some m
          let max' :=
            match st.max_inter_arrival_us with
            | none => some duration_us
            | some m => if duration_us > m then some duration_us else some m
          { st with min_inter_arrival_us := min', max_inter_arrival_us := max'
                    total_inter_arrival_us := st.total_inter_arrival_us + duration_us
                    inter_arrival_count := st.inter_arrival_count + 1 }
        else st
    | none => st
  let st :=
    if st.first_timestamp.isNone then { st with first_timestamp := some packet.timestamp }
    else st
  let st := { st with last_timestamp := some packet.timestamp }
  match flow_id with
  | .GenericL3 _ _ _ _ protocol =>
      { st with protocol_distribution := bumpAssoc st.protocol_distribution protocol }
  | _ => st

/-- The out-of-order part of flow.rs process_packet (current_seq did not
match expected): forward jump with gap emission, late arrival buffering, or
duplicate drop. Comparisons are plain u32 order, exactly as in the source. -/
def FlowState.outOfOrder (st : FlowState) (flow_id : FlowId) (packet : AnalyzedPacket)
    (now current_seq highest : Nat) : Option SequenceGap × FlowState :=
  if highest < current_seq then
    let expected :=
      match st.expected_sequence with
      | some e => e
      | none => wrapAdd highest 1
    let gapAndState :=
      if current_seq ≠ expected then
        let gap_size :=
          if expected < current_seq then wrapSub current_seq expected
          else wrapAdd (wrapAdd (wrapSub U32MAX expected) current_seq) 1
        (some { flow_id := flow_id, expected := expected, received := current_seq
                gap_size := gap_size, timestamp := now },
         { st with expected_sequence := some (wrapAdd current_seq 1) })
      else (none, st)
    let st := gapAndState.2
    let st := { st with reorder_buffer := btreeInsert st.reorder_buffer current_seq packet
                        highest_sequence := some current_seq }
    (gapAndState.1, st)
  else if current_seq < highest then
    if btreeContains st.reorder_buffer current_seq then (none, st)
    else
      let st :=
        match st.expected_sequence with
        | some expected =>
            if current_seq = expected then
              { st with expected_sequence := some (wrapAdd expected 1) }
            else st
        | none => st
      (none, { st with reorder_buffer := btreeInsert st.reorder_buffer current_seq packet })
  else (none, st)

/-- flow.rs FlowTracker::record_gap: min/max gap update plus push. -/
def FlowState.recordGap (st : FlowState) (gap : SequenceGap) : FlowState :=
  let min' :=
    match st.min_gap with
    | none => some gap.gap_size
    | some m => if gap.gap_size < m then some gap.gap_size else some m
  let max' :=
    match st.max_gap with
    | none => some gap.gap_size
    | some m => if gap.gap_size > m then some gap.gap_size else some m
  { st with min_gap := min', max_gap := max', gaps := st.gaps ++ [gap] }

/-- Body of flow.rs FlowTracker::process_packet acting on the flow map
(the method reads and writes `self.flows` and nothing else of the tracker;
in particular it never reads reorder_window_size). `now` models the
SystemTime::now() used for the emitted gap's detection timestamp.
Sequence numbers are u32 values (below 2^32). The two `.unwrap()` calls of
the source (highest_sequence after first_sequence is set) read fields that
are Some in every state the source can reach; they are modelled with a
default of 0. -/
def processFlows (flows : List (FlowId × FlowState)) (packet : AnalyzedPacket) (now : Nat) :
    Option SequenceGap × List (FlowId × FlowState) :=
  let flow_id := packet.flow_id
  let st :=
    match flowsLookup flows flow_id with
    | some st => st
    | none => FlowState.new
  let st := st.statsUpdate packet flow_id
  if flow_id.isGenericL3 then (none, flowsUpdate flows flow_id st)
  else if st.first_sequence.isNone then
    let s := packet.sequence_number
    let st := { st with first_sequence := some s
                        expected_sequence := some (wrapAdd s 1)
                        highest_sequence := some s
                        last_sequence := some s }
    (none, flowsUpdate flows flow_id st)
  else
    let current_seq := packet.sequence_number
    let highest :=
      match st.highest_sequence with
      | some h => h
      | none => 0
    let st := { st with last_sequence := some current_seq }
    let inOrder :=
      match st.expected_sequence with
      | some expected => current_seq == expected
      | none => false
    if inOrder then
      let st := { st with expected_sequence := some (wrapAdd current_seq 1)
                          highest_sequence := some current_seq }
      (none, flowsUpdate flows flow_id st)
    else
      let gapAndState := st.outOfOrder flow_id packet now current_seq highest
      let st :=
        match gapAndState.1 with
        | some g => gapAndState.2.recordGap g
        | none => gapAndState.2
      (gapAndState.1, flowsUpdate flows flow_id st)

/-- flow.rs FlowTracker::process_packet (synchronous variant). -/
def FlowTracker.process_packet (t : FlowTracker) (packet : AnalyzedPacket) (now : Nat) :
    Option SequenceGap × FlowTracker :=
  ((processFlows t.flows packet now).1,
   { t with flows := (processFlows t.flows packet now).2 })

/-- Drives FlowTracker::process_packet over a packet list (the analyzer
loop's tracker calls), collecting the emitted gaps in order. The gap
detection wall-clock instant is irrelevant to every claim and passed as 0. -/
def FlowTracker.processAll (t : FlowTracker) (pkts : List AnalyzedPacket) :
    FlowTracker × List SequenceGap :=
  match pkts with
  | [] => (t, [])
  | p :: rest =>
      let r := t.process_packet p 0
      let rest' := r.2.processAll rest
      (rest'.1, (match r.1 with | some g => [g] | none => []) ++ rest'.2)

/-- types.rs FlowStats (durations as microseconds). -/
structure FlowStats where
  flow_id : FlowId
  packets_received : Nat
  gaps_detected : Nat
  total_lost_packets : Nat
  first_sequence : Option Nat
  last_sequence : Option Nat
  min_gap : Option Nat
  max_gap : Option Nat
  total_bytes : Nat
  first_timestamp : Option Nat
  last_timestamp : Option Nat
  min_inter_arrival : Option Nat
  max_inter_arrival : Option Nat
  avg_inter_arrival : Option Nat
  protocol_distribution : List (Nat × Nat)
deriving DecidableEq

/-- The per-flow body of flow.rs FlowTracker::get_stats. -/
def FlowState.toStats (flow_id : FlowId) (st : FlowState) : FlowStats :=
  { flow_id := flow_id
    packets_received := st.packets_received
    gaps_detected := st.gaps.length
    total_lost_packets := (st.gaps.map (fun g => g.gap_size)).sum
    first_sequence := st.first_sequence
    last_sequence := st.last_sequence
    min_gap := st.min_gap
    max_gap := st.max_gap
    total_bytes := st.total_bytes
    first_timestamp := st.first_timestamp
    last_timestamp := st.last_timestamp
    min_inter_arrival := st.min_inter_arrival_us
    max_inter_arrival := st.max_inter_arrival_us
    avg_inter_arrival :=
      if st.inter_arrival_count > 0 then
        some (st.total_inter_arrival_us / st.inter_arrival_count)
      else none
    protocol_distribution := st.protocol_distribution }

/-- flow.rs FlowTracker::get_stats. -/
def FlowTracker.get_stats (t : FlowTracker) : List FlowStats :=
  t.flows.map (fun p => FlowState.toStats p.1 p.2)

/-- flow.rs FlowTracker::get_gaps. -/
def FlowTracker.get_gaps (t : FlowTracker) : List SequenceGap :=
  t.flows.flatMap (fun p => p.2.gaps)

/-- Lowercase hexadecimal (and decimal) digit character, as produced by
Rust's \x7b:x\x7d and \x7b\x7d formatting. -/
def hexDigitChar (d : Nat) : Char :=
  if d < 10 then Char.ofNat (48 + d) else Char.ofNat (87 + d)

/-- Big-endian base-16 digit values of n, zero-padded to width w
(the digit list of \x7b:016x\x7d when w = 16, since u64 needs at most 16). -/
def toHexPad : Nat → Nat → List Nat
  | 0, _ => []
  | w + 1, n => toHexPad w (n / 16) ++ [n % 16]

/-- Decimal digit characters of n (Rust integer Display), with structural
fuel: n+1 digits always suffice. -/
def natDecCharsAux : Nat → Nat → List Char
  | 0, _ => []
  | fuel + 1, n =>
      if n < 10 then [hexDigitChar n]
      else natDecCharsAux fuel (n / 10) ++ [hexDigitChar (n % 10)]

/-- Decimal rendering of a Nat (Rust's Display for unsigned integers). -/
def natDecChars (n : Nat) : List Char := natDecCharsAux (n + 1) n

/-- Display for std::net::IpAddr. Parsers only construct V4 addresses
(dotted decimal); the V6 rendering (not exercised by any flow the code can
produce from its parsers) is given uncompressed. -/
def IpAddr.display : IpAddr → List Char
  | .v4 a b c d =>
      natDecChars a ++ ".".toList ++ natDecChars b ++ ".".toList ++
      natDecChars c ++ ".".toList ++ natDecChars d
  | .v6 segs =>
      List.intercalate ":".toList (segs.map (fun s => (toHexPad 4 s).map hexDigitChar))

/-- types.rs Display for FlowId (fmt::Display::fmt), as a character list. -/
def FlowId.display : FlowId → List Char
  | .MACsec sci =>
      "MACsec \x7b sci: 0x".toList ++ (toHexPad 16 sci).map hexDigitChar ++ " \x7d".toList
  | .IPsec spi dst_ip =>
      "IPsec \x7b spi: 0x".toList ++ (toHexPad 8 spi).map hexDigitChar ++
      ", dst: ".toList ++ dst_ip.display ++ " \x7d".toList
  | .GenericL3 src_ip dst_ip src_port dst_port protocol =>
      let proto_name : List Char :=
        if protocol = 6 then "TCP".toList
        else if protocol = 17 then "UDP".toList
        else "Unknown".toList
      proto_name ++ " \x7b ".toList ++ src_ip.display ++ ":".toList ++
      natDecChars src_port ++ " -> ".toList ++ dst_ip.display ++ ":".toList ++
      natDecChars dst_port ++ " \x7d".toList

/-- str::starts_with on character lists. -/
def startsWithChars (pat s : List Char) : Bool := s.take pat.length == pat

/-- str::split("0x") on character lists: the chunks between non-overlapping
left-to-right occurrences of the two-character separator. -/
def splitOn0x : List Char → List (List Char)
  | [] => [[]]
  | [c] => [[c]]
  | c1 :: c2 :: rest =>
      if c1 = '0' ∧ c2 = 'x' then [] :: splitOn0x rest
      else
        match splitOn0x (c2 :: rest) with
        | [] => [[c1]]
        | h :: t => (c1 :: h) :: t

/-- Helper for trim_end_matches(" \x7d"): strips repeated occurrences of the
two-character suffix from a reversed character list. -/
def trimRevSpaceBrace : List Char → List Char
  | c1 :: c2 :: rest =>
      if c1 = '\x7d' ∧ c2 = ' ' then trimRevSpaceBrace rest else c1 :: c2 :: rest
  | s => s

/-- str::trim_end_matches(" \x7d") on character lists. -/
def trimEndSpaceBrace (s : List Char) : List Char :=
  (trimRevSpaceBrace s.reverse).reverse

/-- char::to_digit(16): hexadecimal value of a character, either case. -/
def hexVal (c : Char) : Option Nat :=
  if '0' ≤ c ∧ c ≤ '9' then some (c.toNat - 48)
  else if 'a' ≤ c ∧ c ≤ 'f' then some (c.toNat - 87)
  else if 'A' ≤ c ∧ c ≤ 'F' then some (c.toNat - 55)
  else none

/-- Digit-folding loop of u64::from_str_radix(s, 16), with the u64 overflow
check applied at every step. -/
def fromStrRadixGo : List Char → Nat → Option Nat
  | [], acc => some acc
  | c :: rest, acc =>
      match hexVal c with
      | none => none
      | some d =>
          let acc' := acc * 16 + d
          if acc' < 18446744073709551616 then fromStrRadixGo rest acc' else none

/-- u64::from_str_radix(s, 16): optional leading plus sign, at least one
digit, overflow above u64::MAX is an error (None). -/
def fromStrRadix16 (s : List Char) : Option Nat :=
  let s := if s.head? = some '+' then s.tail else s
  if s.isEmpty then none else fromStrRadixGo s 0

/-- types.rs FlowId::new: reconstruct a FlowId from its textual form.
Only the MACsec arm actually parses its payload; IPsec and TCP/UDP inputs
produce fixed placeholder values, exactly as in the source. -/
def FlowId.new (s : List Char) : FlowId :=
  if startsWithChars "MACsec".toList s then
    match (splitOn0x s)[1]? with
    | some hex_str =>
        match fromStrRadix16 (trimEndSpaceBrace hex_str) with
        | some sci => .MACsec sci
        | none => .MACsec 0
    | none => .MACsec 0
  else if startsWithChars "IPsec".toList s then
    .IPsec 0 (.v4 0 0 0 0)
  else if startsWithChars "TCP".toList s || startsWithChars "UDP".toList s then
    .GenericL3 (.v4 0 0 0 0) (.v4 0 0 0 0) 0 0 6
  else .MACsec 0

/-- types.rs RawPacket. -/
structure RawPacket where
  data : List Nat
  timestamp : Nat
  length : Nat
deriving DecidableEq

/-- replay.rs ReplayMode. The SpeedMultiplier factor (an f64 in the source)
only scales sleep durations, which are elided; it is carried as a rational. -/
inductive ReplayMode where
  | Fast
  | OriginalTiming
  | FixedRate (pps : Nat)
  | SpeedMultiplier (m : Rat)
deriving DecidableEq

/-- replay.rs ReplayCapture state. The io_timing block (wall-clock
instrumentation of next_packet latencies) is elided; `loop_count` is kept:
the source stores it and never updates it in next_packet. -/
structure ReplayCapture where
  packets : List RawPacket
  current_index : Nat
  loop_count : Nat
  replay_mode : ReplayMode
  enable_looping : Bool
  first_packet_time : Option Nat
  replay_start_time : Option Nat
  pending_loop_reset : Bool
  packets_replayed : Nat
  loops_completed : Nat
deriving DecidableEq

/-- replay.rs ReplayCapture::apply_timing_delay: the sleeps are elided; only
the error paths (missing first_packet_time / replay_start_time, or a packet
timestamp earlier than the first packet's) are value-relevant. -/
def ReplayCapture.apply_timing_delay (rc : ReplayCapture) (packet : RawPacket) :
    Except CaptureError Unit :=
  match rc.replay_mode with
  | .Fast => .ok ()
  | .OriginalTiming =>
      match rc.first_packet_time with
      | none => .error (.ReadFailed "No first packet time")
      | some first =>
          if packet.timestamp < first then .error (.ReadFailed "Time calculation error")
          else
            match rc.replay_start_time with
            | none => .error (.ReadFailed "Replay not started")
            | some _ => .ok ()
  | .FixedRate _ => .ok ()
  | .SpeedMultiplier _ =>
      match rc.first_packet_time with
      | none => .error (.ReadFailed "No first packet time")
      | some first =>
          if packet.timestamp < first then .error (.ReadFailed "Time calculation error")
          else
            match rc.replay_start_time with
            | none => .error (.ReadFailed "Replay not started")
            | some _ => .ok ()

/-- replay.rs ReplayCapture::next_packet. `now` models both the
Instant::now() stored into replay_start_time and the SystemTime::now()
written over the outgoing packet's timestamp. -/
def ReplayCapture.next_packet (rc : ReplayCapture) (now : Nat) :
    Except CaptureError (Option RawPacket) × ReplayCapture :=
  let rc :=
    if rc.pending_loop_reset then
      { rc with pending_loop_reset := false, current_index := 0
                replay_start_time := some now }
    else rc
  if h : rc.current_index < rc.packets.length then
    let packet := rc.packets.get ⟨rc.current_index, h⟩
    let rc :=
      if rc.replay_start_time.isNone then { rc with replay_start_time := some now }
      else rc
    match rc.apply_timing_delay packet with
    | .error e => (.error e, rc)
    | .ok _ =>
        let result := { packet with timestamp := now }
        (.ok (some result),
         { rc with current_index := rc.current_index + 1
                   packets_replayed := rc.packets_replayed + 1 })
  else
    if !rc.enable_looping then (.error .NoMorePackets, rc)
    else
      (.ok none,
       { rc with loops_completed := rc.loops_completed + 1, pending_loop_reset := true })

/-- The flow.rs test helper create_packet: a packet with the given sequence
and flow, payload 100 bytes; the capture timestamp is taken as instant 0. -/
def create_packet (seq : Nat) (flow_id : FlowId) : AnalyzedPacket :=
  { sequence_number := seq, flow_id := flow_id, timestamp := 0, payload_length := 100 }

/-- The MACsec flow FlowId::MACsec with sci 0x1234 used by the repo tests. -/
def macsecFlowX : FlowId := .MACsec 4660

/-- Observer: a flow's state inside a tracker (FlowState::new if absent). -/
def trackerState (t : FlowTracker) (fid : FlowId) : FlowState :=
  (flowsLookup t.flows fid).getD FlowState.new

/-- The 64-byte IPv4/TCP frame of the generic_l3.rs test helper
create_tcp_packet: 192.168.1.10:12345 -> 10.0.0.1:80, TCP sequence 1000,
20-byte TCP header, 10-byte payload. -/
def tcpFrame : List Nat :=
  [0, 17, 34, 51, 68, 85, 102, 119, 136, 153, 170, 187,
   8, 0,
   0x45, 0, 0, 50, 0, 0, 0, 0, 64, 6, 0, 0,
   192, 168, 1, 10, 10, 0, 0, 1,
   48, 57, 0, 80,
   0, 0, 3, 232,
   0, 0, 0, 0, 0x50, 0, 255, 255, 0, 0, 0, 0] ++ List.replicate 10 0

/-- The SequenceInfo the GenericL3 parser produces for tcpFrame. -/
def tcpInfo : SequenceInfo :=
  { sequence_number := 1000
    flow_id := .GenericL3 (.v4 192 168 1 10) (.v4 10 0 0 1) 12345 80 6
    payload_length := 10 }

/-- A 52-byte IPv4/UDP frame (the generic_l3.rs test helper
create_udp_packet): 192.168.1.10:53 -> 10.0.0.1:53, 10-byte payload. -/
def udpFrame : List Nat :=
  [0, 17, 34, 51, 68, 85, 102, 119, 136, 153, 170, 187,
   8, 0,
   0x45, 0, 0, 38, 0, 0, 0, 0, 64, 17, 0, 0,
   192, 168, 1, 10, 10, 0, 0, 1,
   0, 53, 0, 53, 0, 18, 0, 0] ++ List.replicate 10 0

/-- A MACsec-EtherType frame of exactly n bytes (n at least 14), all other
bytes zero. -/
def macsecZeroFrame (n : Nat) : List Nat :=
  [0, 0, 0, 0, 0, 0, 0, 0, 0, 0, 0, 0, 0x88, 0xE5] ++ List.replicate (n - 14) 0

/-- A 20-byte IPv4 frame (EtherType 0x0800), below every parser's minimum. -/
def shortIpv4Frame : List Nat :=
  [0, 0, 0, 0, 0, 0, 0, 0, 0, 0, 0, 0, 8, 0, 0x45, 0, 0, 0, 0, 6]

/-- Packet list 0, 2, 4, ..., 2n on the test MACsec flow: every packet after
the first is a forward jump that lands in the reorder buffer. -/
def evenPkts (n : Nat) : List AnalyzedPacket :=
  create_packet 0 macsecFlowX ::
    (List.range n).map (fun i => create_packet (2 * (i + 1)) macsecFlowX)

/-- The gaps emitted while processing evenPkts: one unit gap per jump. -/
def evenGaps (k : Nat) : List SequenceGap :=
  (List.range k).map (fun j =>
    { flow_id := macsecFlowX, expected := 2 * j + 1, received := 2 * j + 2
      gap_size := 1, timestamp := 0 })

/-- The reorder buffer contents after processing evenPkts. -/
def evenBuf (k : Nat) : List (Nat × AnalyzedPacket) :=
  (List.range k).map (fun j =>
    (2 * (j + 1), create_packet (2 * (j + 1)) macsecFlowX))

/-- The flow state after processing evenPkts k. -/
def evenState (k : Nat) : FlowState :=
  { FlowState.new with
      first_sequence := some 0
      expected_sequence := some (2 * k + 1)
      highest_sequence := some (2 * k)
      last_sequence := some (2 * k)
      packets_received := k + 1
      total_bytes := 100 * (k + 1)
      gaps := evenGaps k
      min_gap := if k = 0 then none else some 1
      max_gap := if k = 0 then none else some 1
      reorder_buffer := evenBuf k
      first_timestamp := some 0
      last_timestamp := some 0
      min_inter_arrival_us := if k = 0 then none else some 0
      max_inter_arrival_us := if k = 0 then none else some 0
      inter_arrival_count := k }

/-- The in-order packet list 1, 2, ..., N for a flow. -/
def inOrderPkts (fid : FlowId) (N : Nat) : List AnalyzedPacket :=
  (List.range N).map (fun i => create_packet (i + 1) fid)

/-- The flow state after processing inOrderPkts fid N, N at least 1. -/
def inOrderState (N : Nat) : FlowState :=
  { FlowState.new with
      first_sequence := some 1
      expected_sequence := some ((N + 1) % U32LIM)
      highest_sequence := some N
      last_sequence := some N
      packets_received := N
      total_bytes := 100 * N
      first_timestamp := some 0
      last_timestamp := some 0
      min_inter_arrival_us := if N = 1 then none else some 0
      max_inter_arrival_us := if N = 1 then none else some 0
      inter_arrival_count := N - 1 }

/-- A GenericL3 (TCP) flow id for the suppression witnesses. -/
def genericFlowX : FlowId := .GenericL3 (.v4 192 168 1 1) (.v4 192 168 1 2) 5000 80 6

/-- A one-packet replay capture, Fast mode, looping enabled, with the cursor
at end of file (one loop of its single packet already replayed). -/
def rcAtEndLoop : ReplayCapture :=
  { packets := [{ data := [1, 2, 3], timestamp := 5, length := 3 }]
    current_index := 1, loop_count := 0, replay_mode := .Fast
    enable_looping := true, first_packet_time := some 5, replay_start_time := some 0
    pending_loop_reset := false, packets_replayed := 1, loops_completed := 0 }

/-- C1: for a non-GenericL3 flow, the pair [u32::MAX, 1] is claimed to emit
exactly one SequenceGap with expected 0, received 1, gap_size 1. The code
instead emits no gap: the forward-jump test is a plain u32 comparison, so
sequence 1 is treated as a late arrival and lands in the reorder buffer.
This theorem evaluates the tracker at the failing input. -/
theorem C1_wrap_pair_emits_no_gap :
    (FlowTracker.new.processAll
        [create_packet U32MAX macsecFlowX, create_packet 1 macsecFlowX]).2 = [] ∧
    (trackerState (FlowTracker.new.processAll
        [create_packet U32MAX macsecFlowX, create_packet 1 macsecFlowX]).1
        macsecFlowX).gaps = [] ∧
    (trackerState (FlowTracker.new.processAll
        [create_packet U32MAX macsecFlowX, create_packet 1 macsecFlowX]).1
        macsecFlowX).reorder_buffer = [(1, create_packet 1 macsecFlowX)] := by
  decide

/-- C2 counterexample: the GenericL3 parser accepts the repository's own TCP
test frame and detect_and_parse reports its real TCP sequence number 1000,
not the claimed synthetic 0; the accepted UDP test frame yields Ok(None),
so UDP flows are not reported at all. -/
theorem C2_counterexample_tcp_udp :
    GenericL3Parser.matches tcpFrame = true ∧
    (ProtocolRegistry.new.detect_and_parse tcpFrame).1 = .ok (some tcpInfo) ∧
    tcpInfo.sequence_number ≠ 0 ∧
    GenericL3Parser.matches udpFrame = true ∧
    (ProtocolRegistry.new.detect_and_parse udpFrame).1 = .ok none := by
  decide

/-- C3 counterexample: with the default window size 32, feeding
0, 2, 4, ..., 66 leaves 33 entries in the flow's reorder buffer — more than
the claimed bound of 32, so no eviction takes place. -/
theorem C3_counterexample_buffer_exceeds_window :
    FlowTracker.new.reorder_window_size = 32 ∧
    (trackerState (FlowTracker.new.processAll (evenPkts 33)).1
        macsecFlowX).reorder_buffer.length = 33 ∧
    32 < 33 := by
  decide

/-- C4 counterexample: an IPsec FlowId does not round-trip through its
Display form — FlowId::new parses every IPsec string to the placeholder
spi 0, dst 0.0.0.0. -/
theorem C4_counterexample_ipsec_roundtrip :
    FlowId.new (FlowId.display (.IPsec 0x89abcdef (.v4 10 0 0 1))) ≠
      .IPsec 0x89abcdef (.v4 10 0 0 1) := by
  decide

/-- C5 counterexample: a well-formed 14-byte Ethernet frame with EtherType
0x88E5 (below the MACsec parser's 30-byte minimum) makes detect_and_parse
return Err(PacketTooShort), not Ok(None). -/
theorem C5_counterexample_macsec_short_err :
    14 ≤ (macsecZeroFrame 14).length ∧ (macsecZeroFrame 14).length < 30 ∧
    (ProtocolRegistry.new.detect_and_parse (macsecZeroFrame 14)).1 =
      .error .PacketTooShort := by
  decide

/-- C10: for every frame with EtherType 0x88E5 and length between 30 and 44
bytes inclusive, MACsecParser::parse_sequence succeeds and reports
payload_length 0 — the len-28-16 computation is clamped at zero, never
wrapping, so parsing is total on all accepted inputs. -/
theorem C10_macsec_payload_clamp (data : List Nat)
    (h30 : 30 ≤ data.length) (h44 : data.length ≤ 44)
    (h12 : byte data 12 = 0x88) (h13 : byte data 13 = 0xE5) :
    MACsecParser.parse_sequence data =
      .ok (some { sequence_number := be4 data 16
                  flow_id := .MACsec (be8 data 20)
                  payload_length := 0 }) := by
  have h14 : ¬ data.length < 14 := by omega
  have h30' : ¬ data.length < 30 := by omega
  have h44' : ¬ data.length > 28 + 16 := by omega
  simp [MACsecParser.parse_sequence, MACsecParser.matches, h14, h30', h44', h12, h13]

/-- C10 witness: the clamp theorem applied to the 30-byte all-zero MACsec
frame. -/
theorem C10_witness :
    MACsecParser.parse_sequence (macsecZeroFrame 30) =
      .ok (some { sequence_number := be4 (macsecZeroFrame 30) 16
                  flow_id := .MACsec (be8 (macsecZeroFrame 30) 20)
                  payload_length := 0 }) :=
  C10_macsec_payload_clamp (macsecZeroFrame 30) (by decide) (by decide) (by decide) (by decide)

/-- C9: at end-of-file the replay source surfaces NoMorePackets when looping
is disabled; with looping enabled it increments loops_completed and returns
Ok(None) exactly once as a loop-boundary marker, and the next call resumes
from packet index 0 with the replay start time reset to the current instant
(and the outgoing packet's timestamp rewritten to now). -/
theorem C9_replay_loop_boundary :
    (∀ (rc : ReplayCapture) (now : Nat),
        rc.pending_loop_reset = false →
        rc.packets.length ≤ rc.current_index →
        rc.enable_looping = false →
        rc.next_packet now = (.error .NoMorePackets, rc)) ∧
    (∀ (rc : ReplayCapture) (now : Nat),
        rc.pending_loop_reset = false →
        rc.packets.length ≤ rc.current_index →
        rc.enable_looping = true →
        rc.next_packet now =
          (.ok none,
           { rc with loops_completed := rc.loops_completed + 1
                     pending_loop_reset := true })) ∧
    (∀ (rc : ReplayCapture) (now : Nat) (p0 : RawPacket),
        rc.pending_loop_reset = true →
        rc.packets.head? = some p0 →
        ReplayCapture.apply_timing_delay
          { rc with pending_loop_reset := false, current_index := 0
                    replay_start_time := some now } p0 = .ok () →
        rc.next_packet now =
          (.ok (some { p0 with timestamp := now }),
           { rc with pending_loop_reset := false, current_index := 1
                     replay_start_time := some now
                     packets_replayed := rc.packets_replayed + 1 })) := by
  refine ⟨?_, ?_, ?_⟩
  · intro rc now hp hlen hl
    have h : ¬ rc.current_index < rc.packets.length := by omega
    simp [ReplayCapture.next_packet, hp, h, hl]
  · intro rc now hp hlen hl
    have h : ¬ rc.current_index < rc.packets.length := by omega
    simp [ReplayCapture.next_packet, hp, h, hl]
  · intro rc now p0 hp hhead hd
    rcases hq : rc.packets with _ | ⟨q, rest⟩
    · simp [hq] at hhead
    · have hq0 : q = p0 := by simpa [hq] using hhead
      subst hq0
      rw [hq] at hd
      simp [ReplayCapture.next_packet, hp, hq, hd]

/-- C9 witness: the loop-boundary theorem applied to a one-packet Fast-mode
looping replay whose cursor is at end of file: the first call returns the
Ok(None) marker, the second call re-emits packet 0 stamped with the new
instant. -/
theorem C9_witness :
    rcAtEndLoop.next_packet 7 =
      (.ok none,
       { rcAtEndLoop with loops_completed := rcAtEndLoop.loops_completed + 1
                          pending_loop_reset := true }) ∧
    ({ rcAtEndLoop with loops_completed := rcAtEndLoop.loops_completed + 1
                        pending_loop_reset := true } : ReplayCapture).next_packet 9 =
      (.ok (some { data := [1, 2, 3], timestamp := 9, length := 3 }),
       { rcAtEndLoop with loops_completed := 1, pending_loop_reset := false
                          current_index := 1, replay_start_time := some 9
                          packets_replayed := 2 }) :=
  ⟨C9_replay_loop_boundary.2.1 rcAtEndLoop 7 rfl (by decide) rfl,
   C9_replay_loop_boundary.2.2 _ 9 { data := [1, 2, 3], timestamp := 5, length := 3 }
     rfl rfl (by decide)⟩

/-- C5 (amended): detect_and_parse returns Ok(None) — never Err — for every
well-formed IPv4 Ethernet frame (EtherType 0x0800, length at least 14)
shorter than 42 bytes; but a frame with EtherType 0x88E5 and length in
[14, 30) is routed straight to the MACsec parser by the EtherType fast path
and yields Err(PacketTooShort). -/
theorem C5_short_frames_amended :
    (∀ data : List Nat, 14 ≤ data.length → data.length < 42 →
        byte data 12 = 0x08 → byte data 13 = 0x00 →
        (ProtocolRegistry.new.detect_and_parse data).1 = .ok none) ∧
    (∀ data : List Nat, 14 ≤ data.length → data.length < 30 →
        byte data 12 = 0x88 → byte data 13 = 0xE5 →
        (ProtocolRegistry.new.detect_and_parse data).1 = .error .PacketTooShort) := by
  constructor
  · intro data h14 h42 h12 h13
    have hbe : be2 data 12 = 2048 := by simp [be2, h12, h13]
    have h14' : ¬ data.length < 14 := by omega
    have h42' : data.length < 42 := h42
    have hprov : ProtocolRegistry.extract_provisional_flow_id data = none := by
      unfold ProtocolRegistry.extract_provisional_flow_id
      by_cases h34 : data.length < 34
      · simp [h34]
      · simp [h34, h42']
    have hm : MACsecParser.parse_sequence data = .ok none := by
      simp [MACsecParser.parse_sequence, MACsecParser.matches, h14', h12]
    have hi : IPsecParser.parse_sequence data = .ok none := by
      simp [IPsecParser.parse_sequence, IPsecParser.matches, h42']
    have hg : GenericL3Parser.parse_sequence data = .ok none := by
      simp [GenericL3Parser.parse_sequence, GenericL3Parser.matches, h42']
    simp [ProtocolRegistry.detect_and_parse, ProtocolRegistry.tier3, hprov, hm, hi, hg,
          hbe, h14', ProtocolRegistry.new]
  · intro data h14 h30 h12 h13
    have hbe : be2 data 12 = 35045 := by simp [be2, h12, h13]
    have h14' : ¬ data.length < 14 := by omega
    simp [ProtocolRegistry.detect_and_parse, hbe, h14',
          MACsecParser.parse_sequence, MACsecParser.matches, h12, h13, h30]

/-- C5 witness: the amended theorem applied to a 20-byte IPv4 frame and to
the 14-byte MACsec-EtherType frame. -/
theorem C5_witness :
    (ProtocolRegistry.new.detect_and_parse shortIpv4Frame).1 = .ok none ∧
    (ProtocolRegistry.new.detect_and_parse (macsecZeroFrame 14)).1 =
      .error .PacketTooShort :=
  ⟨C5_short_frames_amended.1 shortIpv4Frame (by decide) (by decide) (by decide) (by decide),
   C5_short_frames_amended.2 (macsecZeroFrame 14) (by decide) (by decide) (by decide) (by decide)⟩

/-- C2 (amended): for every Ethernet/IPv4 frame the GenericL3 parser accepts
(protocol 6 or 17), detect_and_parse returns exactly the GenericL3 parser's
result; whenever that result is Ok(Some(info)) the frame is TCP (protocol 6)
and info's sequence_number is the frame's real TCP sequence number (the
big-endian u32 at transport offset 4) — not a synthetic 0. Accepted UDP
frames parse to Ok(None), so UDP flows are not recorded. -/
theorem C2_generic_l3_detect_amended (data : List Nat)
    (hm : GenericL3Parser.matches data = true) :
    (ProtocolRegistry.new.detect_and_parse data).1 =
      GenericL3Parser.parse_sequence data ∧
    (∀ info, GenericL3Parser.parse_sequence data = .ok (some info) →
        byte data 23 = 6 ∧
        info.sequence_number = be4 (data.drop (14 + byte data 14 % 16 * 4)) 4) := by
  have hm' := hm
  simp [GenericL3Parser.matches] at hm'
  obtain ⟨h42, ⟨h12, h13⟩, h23⟩ := hm'
  have hbe : be2 data 12 = 2048 := by simp [be2, h12, h13]
  have h14' : ¬ data.length < 14 := by omega
  have hmac : MACsecParser.parse_sequence data = .ok none := by
    simp [MACsecParser.parse_sequence, MACsecParser.matches, h14', h12]
  have hips : IPsecParser.parse_sequence data = .ok none := by
    have : byte data 23 ≠ 50 := by rcases h23 with h | h <;> omega
    simp [IPsecParser.parse_sequence, IPsecParser.matches, this]
  constructor
  · rcases hprov : ProtocolRegistry.extract_provisional_flow_id data with _ | fid
    · rcases hg : GenericL3Parser.parse_sequence data with e | oinfo
      · simp [ProtocolRegistry.detect_and_parse, ProtocolRegistry.tier3, hbe, h14',
              hprov, hmac, hips, hg, ProtocolRegistry.new]
      · rcases oinfo with _ | info <;>
          simp [ProtocolRegistry.detect_and_parse, ProtocolRegistry.tier3, hbe, h14',
                hprov, hmac, hips, hg, ProtocolRegistry.new]
    · rcases hg : GenericL3Parser.parse_sequence data with e | oinfo
      · simp [ProtocolRegistry.detect_and_parse, ProtocolRegistry.tier3, hbe, h14',
              hprov, hmac, hips, hg, ProtocolRegistry.new, cacheLookup]
      · rcases oinfo with _ | info <;>
          simp [ProtocolRegistry.detect_and_parse, ProtocolRegistry.tier3, hbe, h14',
                hprov, hmac, hips, hg, ProtocolRegistry.new, cacheLookup]
  · intro info hinfo
    unfold GenericL3Parser.parse_sequence at hinfo
    rw [hm] at hinfo
    simp at hinfo
    repeat' split at hinfo
    all_goals simp at hinfo
    all_goals subst hinfo
    all_goals exact ⟨by assumption, rfl⟩

/-- C2 witness: the amended theorem applied to the repository's TCP test
frame (sequence 1000). -/
theorem C2_witness :
    (ProtocolRegistry.new.detect_and_parse tcpFrame).1 =
      GenericL3Parser.parse_sequence tcpFrame ∧
    (byte tcpFrame 23 = 6 ∧
     tcpInfo.sequence_number = be4 (tcpFrame.drop (14 + byte tcpFrame 14 % 16 * 4)) 4) :=
  ⟨(C2_generic_l3_detect_amended tcpFrame (by decide)).1,
   (C2_generic_l3_detect_amended tcpFrame (by decide)).2 tcpInfo (by decide)⟩

theorem flowsLookup_update (m : List (FlowId × FlowState)) (k k' : FlowId) (v : FlowState) :
    flowsLookup (flowsUpdate m k v) k' = if k' = k then some v else flowsLookup m k' := by
  induction m with
  | nil =>
      by_cases h : k' = k
      · subst h; simp [flowsUpdate, flowsLookup]
      · have h2 : ¬ k = k' := fun hh => h hh.symm
        simp [flowsUpdate, flowsLookup, h, h2]
  | cons pr rest ih =>
      obtain ⟨k0, v0⟩ := pr
      by_cases h0 : k0 = k
      · subst h0
        by_cases h : k' = k0
        · subst h; simp [flowsUpdate, flowsLookup]
        · have h2 : ¬ k0 = k' := fun hh => h hh.symm
          simp [flowsUpdate, flowsLookup, h, h2]
      · by_cases h : k' = k0
        · subst h
          simp [flowsUpdate, flowsLookup, h0, fun hh : k' = k => h0 (hh ▸ rfl)]
        · have h2 : ¬ k0 = k' := fun hh => h hh.symm
          simp [flowsUpdate, flowsLookup, h0, h, h2, ih]

theorem statsUpdate_gaps (st : FlowState) (p : AnalyzedPacket) (f : FlowId) :
    (st.statsUpdate p f).gaps = st.gaps := by
  simp only [FlowState.statsUpdate]
  repeat' split
  all_goals rfl

theorem statsUpdate_first_sequence (st : FlowState) (p : AnalyzedPacket) (f : FlowId) :
    (st.statsUpdate p f).first_sequence = st.first_sequence := by
  simp only [FlowState.statsUpdate]
  repeat' split
  all_goals rfl

theorem outOfOrder_gaps (st : FlowState) (f : FlowId) (p : AnalyzedPacket)
    (now c h : Nat) : ((st.outOfOrder f p now c h).2).gaps = st.gaps := by
  simp only [FlowState.outOfOrder]
  repeat' split
  all_goals rfl

theorem outOfOrder_gap_flow (st : FlowState) (f : FlowId) (p : AnalyzedPacket)
    (now c h : Nat) (g : SequenceGap) :
    (st.outOfOrder f p now c h).1 = some g → g.flow_id = f := by
  simp only [FlowState.outOfOrder]
  repeat' split
  all_goals intro hh
  all_goals try exact Option.noConfusion hh
  all_goals injection hh with hh
  all_goals subst hh
  all_goals rfl

theorem recordGap_gaps (st : FlowState) (g : SequenceGap) :
    (st.recordGap g).gaps = st.gaps ++ [g] := by
  simp only [FlowState.recordGap]

theorem processFlows_generic_none (flows : List (FlowId × FlowState)) (p : AnalyzedPacket)
    (now : Nat) (h : p.flow_id.isGenericL3 = true) :
    (processFlows flows p now).1 = none := by
  simp only [processFlows]
  simp [h]

theorem processFlows_gap_flow (flows : List (FlowId × FlowState)) (p : AnalyzedPacket)
    (now : Nat) (g : SequenceGap) :
    (processFlows flows p now).1 = some g →
      g.flow_id = p.flow_id ∧ p.flow_id.isGenericL3 = false := by
  intro hh
  by_cases hgen : p.flow_id.isGenericL3 = true
  · rw [processFlows_generic_none flows p now hgen] at hh
    exact Option.noConfusion hh
  · refine ⟨?_, by simpa using hgen⟩
    revert hh
    simp only [processFlows]
    repeat' split
    all_goals intro hh
    all_goals try exact Option.noConfusion hh
    all_goals first
      | exact outOfOrder_gap_flow _ _ _ _ _ _ _ hh
      | simp_all

theorem processFlows_gaps_self (flows : List (FlowId × FlowState)) (p : AnalyzedPacket)
    (now : Nat) :
    ((flowsLookup (processFlows flows p now).2 p.flow_id).getD FlowState.new).gaps =
      ((flowsLookup flows p.flow_id).getD FlowState.new).gaps ++
        (processFlows flows p now).1.toList := by
  simp only [processFlows]
  repeat' split
  all_goals simp_all [flowsLookup_update, statsUpdate_gaps, outOfOrder_gaps, recordGap_gaps]

theorem processFlows_gaps_other (flows : List (FlowId × FlowState)) (p : AnalyzedPacket)
    (now : Nat) (fid : FlowId) (h : fid ≠ p.flow_id) :
    flowsLookup (processFlows flows p now).2 fid = flowsLookup flows fid := by
  simp only [processFlows]
  repeat' split
  all_goals simp [flowsLookup_update, h]

theorem processAll_gaps (pkts : List AnalyzedPacket) : ∀ (t : FlowTracker) (fid : FlowId),
    ((flowsLookup (t.processAll pkts).1.flows fid).getD FlowState.new).gaps =
      ((flowsLookup t.flows fid).getD FlowState.new).gaps ++
        ((t.processAll pkts).2.filter (fun g => g.flow_id == fid)) := by
  induction pkts with
  | nil => intro t fid; simp [FlowTracker.processAll]
  | cons p rest ih =>
      intro t fid
      simp only [FlowTracker.processAll, FlowTracker.process_packet, List.filter_append]
      rw [ih]
      by_cases hf : fid = p.flow_id
      · subst hf
        rw [processFlows_gaps_self]
        rcases hr : (processFlows t.flows p 0).1 with _ | g
        · simp
        · have hflow := (processFlows_gap_flow t.flows p 0 g hr).1
          simp [hflow]
      · rw [processFlows_gaps_other t.flows p 0 fid hf]
        rcases hr : (processFlows t.flows p 0).1 with _ | g
        · simp
        · have hflow := (processFlows_gap_flow t.flows p 0 g hr).1
          have : (g.flow_id == fid) = false := by
            simp [hflow]
            exact fun hh => hf (hh.symm)
          simp [this]

theorem processAll_gap_not_generic (pkts : List AnalyzedPacket) :
    ∀ (t : FlowTracker) (g : SequenceGap), g ∈ (t.processAll pkts).2 →
      g.flow_id.isGenericL3 = false := by
  induction pkts with
  | nil => intro t g hg; simp [FlowTracker.processAll] at hg
  | cons p rest ih =>
      intro t g hg
      simp only [FlowTracker.processAll, FlowTracker.process_packet] at hg
      rw [List.mem_append] at hg
      rcases hg with hg | hg
      · rcases hr : (processFlows t.flows p 0).1 with _ | g0
        · rw [hr] at hg; simp at hg
        · rw [hr] at hg; simp at hg
          subst hg
          have h2 := processFlows_gap_flow t.flows p 0 _ hr
          rw [h2.1]
          exact h2.2
      · exact ih _ g hg


theorem processAll_gaps_new (pkts : List AnalyzedPacket) (fid : FlowId) :
    ((flowsLookup (FlowTracker.new.processAll pkts).1.flows fid).getD FlowState.new).gaps =
      (FlowTracker.new.processAll pkts).2.filter (fun g => g.flow_id == fid) := by
  have h0 := processAll_gaps pkts FlowTracker.new fid
  rw [show flowsLookup FlowTracker.new.flows fid = none from rfl] at h0
  simpa [FlowState.new] using h0

/-- C6: after any sequence of process_packet calls, each flow's recorded
gaps are exactly the gaps emitted for that flow (in order), and the
FlowStats that get_stats builds satisfies total_lost_packets = sum of
gap_size over those recorded gaps and gaps_detected = their count. -/
theorem C6_gap_accounting (pkts : List AnalyzedPacket) (fid : FlowId) (st : FlowState)
    (h : flowsLookup (FlowTracker.new.processAll pkts).1.flows fid = some st) :
    st.gaps = (FlowTracker.new.processAll pkts).2.filter (fun g => g.flow_id == fid) ∧
    (FlowState.toStats fid st).total_lost_packets =
      (st.gaps.map (fun g => g.gap_size)).sum ∧
    (FlowState.toStats fid st).gaps_detected = st.gaps.length := by
  have h0 := processAll_gaps_new pkts fid
  rw [h] at h0
  simp only [Option.getD_some] at h0
  exact ⟨h0, rfl, rfl⟩

/-- C6 witness: the gap-accounting theorem at the packet list 1, 2, 4 on
one MACsec flow. -/
theorem C6_witness :
    (trackerState (FlowTracker.new.processAll
        [create_packet 1 macsecFlowX, create_packet 2 macsecFlowX,
         create_packet 4 macsecFlowX]).1 macsecFlowX).gaps =
      (FlowTracker.new.processAll
        [create_packet 1 macsecFlowX, create_packet 2 macsecFlowX,
         create_packet 4 macsecFlowX]).2.filter (fun g => g.flow_id == macsecFlowX) ∧
    (FlowState.toStats macsecFlowX (trackerState (FlowTracker.new.processAll
        [create_packet 1 macsecFlowX, create_packet 2 macsecFlowX,
         create_packet 4 macsecFlowX]).1 macsecFlowX)).total_lost_packets =
      ((trackerState (FlowTracker.new.processAll
        [create_packet 1 macsecFlowX, create_packet 2 macsecFlowX,
         create_packet 4 macsecFlowX]).1 macsecFlowX).gaps.map (fun g => g.gap_size)).sum ∧
    (FlowState.toStats macsecFlowX (trackerState (FlowTracker.new.processAll
        [create_packet 1 macsecFlowX, create_packet 2 macsecFlowX,
         create_packet 4 macsecFlowX]).1 macsecFlowX)).gaps_detected =
      (trackerState (FlowTracker.new.processAll
        [create_packet 1 macsecFlowX, create_packet 2 macsecFlowX,
         create_packet 4 macsecFlowX]).1 macsecFlowX).gaps.length :=
  C6_gap_accounting
    [create_packet 1 macsecFlowX, create_packet 2 macsecFlowX, create_packet 4 macsecFlowX]
    macsecFlowX _ (by decide)

/-- C7: process_packet returns None for every GenericL3 packet, no emitted
gap ever carries a GenericL3 flow id, and a GenericL3 flow's recorded gaps
stay empty (gaps_detected = 0) after any packet sequence. -/
theorem C7_generic_l3_suppression :
    (∀ (t : FlowTracker) (p : AnalyzedPacket) (now : Nat),
        p.flow_id.isGenericL3 = true → (t.process_packet p now).1 = none) ∧
    (∀ (pkts : List AnalyzedPacket) (g : SequenceGap),
        g ∈ (FlowTracker.new.processAll pkts).2 → g.flow_id.isGenericL3 = false) ∧
    (∀ (pkts : List AnalyzedPacket) (fid : FlowId) (st : FlowState),
        fid.isGenericL3 = true →
        flowsLookup (FlowTracker.new.processAll pkts).1.flows fid = some st →
        st.gaps = [] ∧ (FlowState.toStats fid st).gaps_detected = 0) := by
  refine ⟨?_, ?_, ?_⟩
  · intro t p now h
    simpa [FlowTracker.process_packet] using processFlows_generic_none t.flows p now h
  · intro pkts g hg
    exact processAll_gap_not_generic pkts FlowTracker.new g hg
  · intro pkts fid st hf h
    have h0 := processAll_gaps_new pkts fid
    rw [h] at h0
    simp only [Option.getD_some] at h0
    have hempty :
        (FlowTracker.new.processAll pkts).2.filter (fun g => g.flow_id == fid) = [] := by
      rw [List.filter_eq_nil]
      intro g hg'
      have hng := processAll_gap_not_generic pkts FlowTracker.new g hg'
      simp only [beq_iff_eq]
      intro heq
      rw [heq] at hng
      rw [hng] at hf
      exact Bool.noConfusion hf
    rw [hempty] at h0
    refine ⟨h0, ?_⟩
    simp [FlowState.toStats, h0]

/-- C7 witness: the suppression theorem at one concrete GenericL3 (TCP)
packet and the singleton packet list. -/
theorem C7_witness :
    (FlowTracker.new.process_packet (create_packet 1 genericFlowX) 0).1 = none ∧
    ((trackerState (FlowTracker.new.processAll [create_packet 1 genericFlowX]).1
        genericFlowX).gaps = [] ∧
     (FlowState.toStats genericFlowX
        (trackerState (FlowTracker.new.processAll [create_packet 1 genericFlowX]).1
          genericFlowX)).gaps_detected = 0) :=
  ⟨C7_generic_l3_suppression.1 FlowTracker.new (create_packet 1 genericFlowX) 0 (by decide),
   C7_generic_l3_suppression.2.2 [create_packet 1 genericFlowX] genericFlowX _
     (by decide) (by decide)⟩

theorem statsUpdate_not_generic (st : FlowState) (p : AnalyzedPacket) (f : FlowId)
    (hg : f.isGenericL3 = false) :
    st.statsUpdate p f = st.statsUpdate p (.MACsec 0) := by
  rcases f with sci | ⟨spi, dst⟩ | ⟨a, b, c, d, e⟩
  · rfl
  · rfl
  · simp [FlowId.isGenericL3] at hg

theorem processAll_append (t : FlowTracker) (xs ys : List AnalyzedPacket) :
    t.processAll (xs ++ ys) =
      (((t.processAll xs).1.processAll ys).1,
       (t.processAll xs).2 ++ ((t.processAll xs).1.processAll ys).2) := by
  induction xs generalizing t with
  | nil => simp [FlowTracker.processAll]
  | cons p rest ih => simp [FlowTracker.processAll, ih]

theorem inOrder_base (fid : FlowId) (hg : fid.isGenericL3 = false) :
    processFlows [] (create_packet 1 fid) 0 = (none, [(fid, inOrderState 1)]) := by
  simp only [processFlows, create_packet, flowsLookup]
  simp only [statsUpdate_not_generic _ _ _ hg]
  simp only [hg, FlowState.statsUpdate, FlowState.new, inOrderState, flowsUpdate, wrapAdd]
  simp

theorem inOrder_step (fid : FlowId) (hg : fid.isGenericL3 = false) (k : Nat)
    (hk : 1 ≤ k) (hN : k + 1 < U32LIM) :
    processFlows [(fid, inOrderState k)] (create_packet (k + 1) fid) 0 =
      (none, [(fid, inOrderState (k + 1))]) := by
  have hmod : (k + 1) % U32LIM = k + 1 := Nat.mod_eq_of_lt hN
  simp only [processFlows, create_packet, flowsLookup, if_pos rfl]
  simp only [statsUpdate_not_generic _ _ _ hg]
  simp only [hg, FlowState.statsUpdate, FlowState.new, inOrderState, flowsUpdate, wrapAdd]
  simp [hmod]
  refine ⟨by omega, ?_, ?_, by omega⟩ <;>
    by_cases hk1 : k = 1 <;>
      simp [hk1, show ¬ k = 0 by omega]

theorem inOrder_run (fid : FlowId) (hg : fid.isGenericL3 = false) :
    ∀ N, 1 ≤ N → N < U32LIM →
      FlowTracker.new.processAll (inOrderPkts fid N) =
        ({ flows := [(fid, inOrderState N)], reorder_window_size := 32 }, []) := by
  intro N
  induction N with
  | zero => intro h1 _; exact absurd h1 (by omega)
  | succ k ih =>
      intro h1 hN
      by_cases hk : k = 0
      · subst hk
        have hpk : inOrderPkts fid 1 = [create_packet 1 fid] := by
          simp [inOrderPkts, List.range_succ]
        rw [hpk]
        have hb := inOrder_base fid hg
        simp [FlowTracker.processAll, FlowTracker.process_packet, FlowTracker.new,
              FlowTracker.with_window_size, hb]
      · have hk1 : 1 ≤ k := by omega
        have ihh := ih (by omega) (by omega)
        have hsplit : inOrderPkts fid (k + 1) =
            inOrderPkts fid k ++ [create_packet (k + 1) fid] := by
          simp [inOrderPkts, List.range_succ]
        rw [hsplit, processAll_append, ihh]
        have hs := inOrder_step fid hg k hk1 (by omega)
        simp [FlowTracker.processAll, FlowTracker.process_packet, hs]

/-- C8: feeding sequences 1, 2, ..., N in order for one non-GenericL3 flow
yields zero gaps (no process_packet call returns Some), and the resulting
flow state has packets_received = N and total_lost_packets = 0. -/
theorem C8_in_order_idempotence (fid : FlowId) (N : Nat) (hg : fid.isGenericL3 = false)
    (h1 : 1 ≤ N) (hN : N < U32LIM) :
    (FlowTracker.new.processAll (inOrderPkts fid N)).2 = [] ∧
    flowsLookup (FlowTracker.new.processAll (inOrderPkts fid N)).1.flows fid =
      some (inOrderState N) ∧
    (inOrderState N).packets_received = N ∧
    (FlowState.toStats fid (inOrderState N)).packets_received = N ∧
    (FlowState.toStats fid (inOrderState N)).total_lost_packets = 0 := by
  have hr := inOrder_run fid hg N h1 hN
  rw [hr]
  refine ⟨rfl, ?_, rfl, rfl, rfl⟩
  simp [flowsLookup]

/-- C8 witness: in-order idempotence at N = 5 on the test MACsec flow. -/
theorem C8_witness :
    (FlowTracker.new.processAll (inOrderPkts macsecFlowX 5)).2 = [] ∧
    flowsLookup (FlowTracker.new.processAll (inOrderPkts macsecFlowX 5)).1.flows
      macsecFlowX = some (inOrderState 5) ∧
    (inOrderState 5).packets_received = 5 ∧
    (FlowState.toStats macsecFlowX (inOrderState 5)).packets_received = 5 ∧
    (FlowState.toStats macsecFlowX (inOrderState 5)).total_lost_packets = 0 :=
  C8_in_order_idempotence macsecFlowX 5 (by decide) (by decide) (by decide)

theorem wrapSub_succ (a : Nat) (ha : a + 1 < U32LIM) : wrapSub (a + 1) a = 1 := by
  have ha' : a % U32LIM = a := Nat.mod_eq_of_lt (by omega)
  unfold wrapSub
  rw [ha']
  have h : a + 1 + U32LIM - a = U32LIM + 1 := by omega
  rw [h, Nat.add_mod_left]
  exact Nat.mod_eq_of_lt (by norm_num [U32LIM])

theorem btreeInsert_append_of_gt (m : List (Nat × AnalyzedPacket)) (k : Nat)
    (v : AnalyzedPacket) (h : ∀ p ∈ m, p.1 < k) : btreeInsert m k v = m ++ [(k, v)] := by
  induction m with
  | nil => rfl
  | cons q rest ih =>
      obtain ⟨k0, v0⟩ := q
      have hk0 : k0 < k := h (k0, v0) (by simp)
      simp only [btreeInsert, if_neg (by omega : ¬ k < k0), if_neg (by omega : ¬ k = k0),
                 List.cons_append, List.cons.injEq, true_and]
      exact ih (fun p hp => h p (by simp [hp]))

theorem evenBuf_lt (k : Nat) : ∀ p ∈ evenBuf k, p.1 < 2 * (k + 1) := by
  intro p hp
  simp [evenBuf] at hp
  obtain ⟨j, hj, rfl⟩ := hp
  simp
  omega

theorem evenBuf_succ (k : Nat) :
    evenBuf (k + 1) = evenBuf k ++ [(2 * (k + 1), create_packet (2 * (k + 1)) macsecFlowX)] := by
  simp [evenBuf, List.range_succ]

theorem evenGaps_succ (k : Nat) :
    evenGaps (k + 1) = evenGaps k ++
      [{ flow_id := macsecFlowX, expected := 2 * k + 1, received := 2 * k + 2
         gap_size := 1, timestamp := 0 }] := by
  simp [evenGaps, List.range_succ]

theorem even_step (k : Nat) (hN : 2 * k + 3 < U32LIM) :
    processFlows [(macsecFlowX, evenState k)] (create_packet (2 * (k + 1)) macsecFlowX) 0 =
      (some { flow_id := macsecFlowX, expected := 2 * k + 1, received := 2 * k + 2
              gap_size := 1, timestamp := 0 },
       [(macsecFlowX, evenState (k + 1))]) := by
  have h2 : 2 * (k + 1) = 2 * k + 2 := by ring
  have hmod : (2 * k + 3) % U32LIM = 2 * k + 3 := Nat.mod_eq_of_lt hN
  have hws : wrapSub (2 * k + 2) (2 * k + 1) = 1 := wrapSub_succ (2 * k + 1) (by omega)
  have hbuf : btreeInsert (evenBuf k) (2 * k + 2)
      { sequence_number := 2 * k + 2, flow_id := FlowId.MACsec 4660
        timestamp := 0, payload_length := 100 } =
      evenBuf k ++ [(2 * k + 2,
        { sequence_number := 2 * k + 2, flow_id := FlowId.MACsec 4660
          timestamp := 0, payload_length := 100 })] := by
    apply btreeInsert_append_of_gt
    intro p hp
    have := evenBuf_lt k p hp
    omega
  have hbs : evenBuf (k + 1) = evenBuf k ++ [(2 * k + 2,
      { sequence_number := 2 * k + 2, flow_id := FlowId.MACsec 4660
        timestamp := 0, payload_length := 100 })] := by
    rw [evenBuf_succ]
    simp [create_packet, macsecFlowX, h2]
  simp only [processFlows, create_packet, flowsLookup, macsecFlowX]
  simp only [FlowState.statsUpdate, FlowState.outOfOrder, FlowState.recordGap,
             FlowState.new, evenState, flowsUpdate, wrapAdd]
  simp only [FlowId.isGenericL3]
  simp [hmod, hws, hbuf, hbs, evenGaps_succ, h2,
        show ¬ (2 * k + 2 = 2 * k + 1) by omega,
        show 2 * k < 2 * k + 2 by omega,
        show 2 * k + 1 < 2 * k + 2 by omega]
  refine ⟨rfl, ?_, ?_, by omega, ?_, ?_⟩ <;> by_cases hk0 : k = 0 <;> simp [hk0]

theorem even_run : ∀ n, 2 * n + 1 < U32LIM →
    FlowTracker.new.processAll (evenPkts n) =
      ({ flows := [(macsecFlowX, evenState n)], reorder_window_size := 32 }, evenGaps n) := by
  intro n
  induction n with
  | zero => intro _; decide
  | succ k ih =>
      intro h
      have hsplit : evenPkts (k + 1) =
          evenPkts k ++ [create_packet (2 * (k + 1)) macsecFlowX] := by
        simp [evenPkts, List.range_succ]
      rw [hsplit, processAll_append, ih (by omega)]
      have hs := even_step k (by omega)
      simp [FlowTracker.processAll, FlowTracker.process_packet, hs, evenGaps_succ]

theorem processAll_window (pkts : List AnalyzedPacket) :
    ∀ (fl : List (FlowId × FlowState)) (w w' : Nat),
      (FlowTracker.processAll ⟨fl, w⟩ pkts).1.flows =
        (FlowTracker.processAll ⟨fl, w'⟩ pkts).1.flows ∧
      (FlowTracker.processAll ⟨fl, w⟩ pkts).2 =
        (FlowTracker.processAll ⟨fl, w'⟩ pkts).2 := by
  induction pkts with
  | nil => intro fl w w'; simp [FlowTracker.processAll]
  | cons p rest ih =>
      intro fl w w'
      simp only [FlowTracker.processAll, FlowTracker.process_packet]
      have h := ih (processFlows fl p 0).2 w w'
      simp [h.1, h.2]

/-- C3 (amended): the reorder buffer is unbounded — the packet sequence
0, 2, ..., 2n leaves exactly n entries in the flow's buffer for every n, so
no bound is enforced — and the tracker's entire observable behavior is
independent of the configured reorder_window_size, which is stored but
never consulted. -/
theorem C3_reorder_buffer_unbounded :
    (∀ n, 2 * n + 1 < U32LIM →
        (trackerState (FlowTracker.new.processAll (evenPkts n)).1
          macsecFlowX).reorder_buffer.length = n) ∧
    (∀ (w : Nat) (pkts : List AnalyzedPacket),
        ((FlowTracker.with_window_size w).processAll pkts).1.flows =
          (FlowTracker.new.processAll pkts).1.flows ∧
        ((FlowTracker.with_window_size w).processAll pkts).2 =
          (FlowTracker.new.processAll pkts).2) := by
  constructor
  · intro n hn
    rw [even_run n hn]
    simp [trackerState, flowsLookup, evenState, evenBuf]
  · intro w pkts
    exact processAll_window pkts [] w 32

/-- C3 witness: the amended theorem at n = 33 (the buffer exceeds the
default window 32) and at window size 1 on the same packet list. -/
theorem C3_witness :
    (trackerState (FlowTracker.new.processAll (evenPkts 33)).1
      macsecFlowX).reorder_buffer.length = 33 ∧
    ((FlowTracker.with_window_size 1).processAll (evenPkts 33)).1.flows =
      (FlowTracker.new.processAll (evenPkts 33)).1.flows :=
  ⟨C3_reorder_buffer_unbounded.1 33 (by decide),
   (C3_reorder_buffer_unbounded.2 1 (evenPkts 33)).1⟩

theorem toHexPad_length (w : Nat) : ∀ n, (toHexPad w n).length = w := by
  induction w with
  | zero => intro n; rfl
  | succ k ih => intro n; simp [toHexPad, ih]

theorem toHexPad_lt (w : Nat) : ∀ n d, d ∈ toHexPad w n → d < 16 := by
  induction w with
  | zero => intro n d hd; simp [toHexPad] at hd
  | succ k ih =>
      intro n d hd
      simp only [toHexPad, List.mem_append, List.mem_singleton] at hd
      rcases hd with hd | hd
      · exact ih _ _ hd
      · subst hd; exact Nat.mod_lt _ (by norm_num)

theorem hexVal_hexDigitChar : ∀ d, d < 16 → hexVal (hexDigitChar d) = some d := by decide

theorem hexDigitChar_ne_x : ∀ d, d < 16 → hexDigitChar d ≠ 'x' := by decide

theorem hexDigitChar_ne_plus : ∀ d, d < 16 → hexDigitChar d ≠ '+' := by decide

theorem hexDigitChar_ne_brace : ∀ d, d < 16 → hexDigitChar d ≠ '\x7d' := by decide

theorem splitOn0x_ne_nil (s : List Char) : splitOn0x s ≠ [] := by
  match s with
  | [] => simp [splitOn0x]
  | [c] => simp [splitOn0x]
  | c1 :: c2 :: rest =>
      simp only [splitOn0x]
      split
      · simp
      · split <;> simp

theorem splitOn0x_no_x : ∀ (s : List Char), 'x' ∉ s → splitOn0x s = [s]
  | [], _ => rfl
  | [c], _ => rfl
  | c1 :: c2 :: rest, h => by
      have h2 : 'x' ∉ (c2 :: rest) := fun hm => h (List.mem_cons_of_mem _ hm)
      have hc2 : c2 ≠ 'x' := fun he => h2 (he ▸ List.mem_cons_self _ _)
      simp only [splitOn0x]
      rw [if_neg (by rintro ⟨_, hh⟩; exact hc2 hh)]
      rw [splitOn0x_no_x (c2 :: rest) h2]

theorem splitOn0x_append : ∀ (l s : List Char), '0' ∉ l →
    splitOn0x (l ++ s) = (splitOn0x s).modifyHead (fun h => l ++ h)
  | [], s, _ => by
      cases h : splitOn0x s with
      | nil => exact absurd h (splitOn0x_ne_nil s)
      | cons a t => simp [h, List.modifyHead]
  | c :: l', s, h => by
      have hc : c ≠ '0' := fun he => h (he ▸ List.mem_cons_self _ _)
      have hl' : '0' ∉ l' := fun hm => h (List.mem_cons_of_mem _ hm)
      cases hls : l' ++ s with
      | nil =>
          obtain ⟨hl0, hs0⟩ := List.append_eq_nil.mp hls
          subst hl0; subst hs0
          simp [splitOn0x, List.modifyHead]
      | cons c2 rest =>
          rw [show (c :: l') ++ s = c :: (l' ++ s) from rfl, hls]
          simp only [splitOn0x]
          rw [if_neg (by rintro ⟨h0, _⟩; exact hc h0)]
          rw [← hls, splitOn0x_append l' s hl']
          cases hss : splitOn0x s with
          | nil => exact absurd hss (splitOn0x_ne_nil s)
          | cons a t => simp [List.modifyHead]

theorem mod_hex_succ (n w : Nat) :
    n % 16 ^ (w + 1) = 16 * (n / 16 % 16 ^ w) + n % 16 := by
  have hpow : (16 : Nat) ^ (w + 1) = 16 * 16 ^ w := by ring
  have hp : 0 < (16 : Nat) ^ w := Nat.pos_pow_of_pos w (by norm_num)
  rw [hpow]
  conv_lhs => rw [show n = 16 * (n / 16) + n % 16 from (Nat.div_add_mod n 16).symm]
  rw [Nat.add_mod, Nat.mul_mod_mul_left]
  have h1 : n % 16 % (16 * 16 ^ w) = n % 16 :=
    Nat.mod_eq_of_lt (lt_of_lt_of_le (Nat.mod_lt _ (by norm_num))
      (Nat.le_mul_of_pos_right 16 hp))
  rw [h1]
  have h2 : n / 16 % 16 ^ w < 16 ^ w := Nat.mod_lt _ hp
  have h3 : n % 16 < 16 := Nat.mod_lt _ (by norm_num)
  exact Nat.mod_eq_of_lt (by nlinarith)

theorem fromStrRadixGo_append (l1 l2 : List Char) : ∀ (acc : Nat),
    fromStrRadixGo (l1 ++ l2) acc =
      match fromStrRadixGo l1 acc with
      | some a => fromStrRadixGo l2 a
      | none => none := by
  induction l1 with
  | nil => intro acc; rfl
  | cons c rest ih =>
      intro acc
      rcases h : hexVal c with _ | d
      · simp [fromStrRadixGo, h]
      · simp only [List.cons_append, fromStrRadixGo, h]
        split
        · exact ih _
        · rfl

theorem fromStrRadixGo_hexPad : ∀ (w n acc : Nat),
    acc * 16 ^ w + n % 16 ^ w < 18446744073709551616 →
    fromStrRadixGo ((toHexPad w n).map hexDigitChar) acc =
      some (acc * 16 ^ w + n % 16 ^ w) := by
  intro w
  induction w with
  | zero => intro n acc h; simp [toHexPad, fromStrRadixGo, Nat.mod_one]
  | succ k ih =>
      intro n acc h
      have hA : acc * 16 ^ (k + 1) + n % 16 ^ (k + 1) =
          (acc * 16 ^ k + n / 16 % 16 ^ k) * 16 + n % 16 := by
        rw [mod_hex_succ]; ring
      simp only [toHexPad, List.map_append, List.map_cons, List.map_nil]
      rw [fromStrRadixGo_append]
      have hbound : acc * 16 ^ k + n / 16 % 16 ^ k < 18446744073709551616 := by
        rw [hA] at h; omega
      rw [ih (n / 16) acc hbound]
      have hd : hexVal (hexDigitChar (n % 16)) = some (n % 16) :=
        hexVal_hexDigitChar _ (Nat.mod_lt _ (by norm_num))
      have hlt : (acc * 16 ^ k + n / 16 % 16 ^ k) * 16 + n % 16 <
          18446744073709551616 := by rw [← hA]; exact h
      simp only [fromStrRadixGo, hd, hlt, if_pos]
      rw [← hA]

theorem trimRev_not_brace (s : List Char) (h : ∀ c ∈ s, c ≠ '\x7d') :
    trimRevSpaceBrace s = s := by
  match s with
  | [] => rfl
  | [c] => rfl
  | c1 :: c2 :: rest =>
      have hc1 : c1 ≠ '\x7d' := h c1 (List.mem_cons_self _ _)
      simp only [trimRevSpaceBrace]
      rw [if_neg (by rintro ⟨h0, _⟩; exact hc1 h0)]

theorem preChars :
    "MACsec \x7b sci: ".toList =
      ['M', 'A', 'C', 's', 'e', 'c', ' ', '\x7b', ' ', 's', 'c', 'i', ':', ' '] := by
  decide

theorem preCharsOx :
    "MACsec \x7b sci: 0x".toList = "MACsec \x7b sci: ".toList ++ ['0', 'x'] := by
  decide

theorem sfxChars : " \x7d".toList = [' ', '\x7d'] := by decide

theorem zero_notin_pre : '0' ∉ "MACsec \x7b sci: ".toList := by decide

theorem hdisp_macsec (sci : Nat) :
    FlowId.display (.MACsec sci) =
      "MACsec \x7b sci: ".toList ++
        ('0' :: 'x' :: ((toHexPad 16 sci).map hexDigitChar ++ [' ', '\x7d'])) := by
  show "MACsec \x7b sci: 0x".toList ++ (toHexPad 16 sci).map hexDigitChar ++
      " \x7d".toList = _
  rw [preCharsOx, sfxChars]
  simp [List.append_assoc]

theorem hsplit_macsec (sci : Nat) :
    splitOn0x (FlowId.display (.MACsec sci)) =
      ["MACsec \x7b sci: ".toList,
       (toHexPad 16 sci).map hexDigitChar ++ [' ', '\x7d']] := by
  have hhexmem : ∀ c ∈ (toHexPad 16 sci).map hexDigitChar,
      ∃ d, d < 16 ∧ c = hexDigitChar d := by
    intro c hc
    simp only [List.mem_map] at hc
    obtain ⟨d, hd, rfl⟩ := hc
    exact ⟨d, toHexPad_lt 16 sci d hd, rfl⟩
  have hx_notin : 'x' ∉ (toHexPad 16 sci).map hexDigitChar ++ [' ', '\x7d'] := by
    intro hm
    rcases List.mem_append.mp hm with hm | hm
    · obtain ⟨d, hd, he⟩ := hhexmem _ hm
      exact hexDigitChar_ne_x d hd he.symm
    · simp at hm
  rw [hdisp_macsec, splitOn0x_append _ _ zero_notin_pre]
  have h1 : splitOn0x ('0' :: 'x' ::
        ((toHexPad 16 sci).map hexDigitChar ++ [' ', '\x7d'])) =
      [] :: splitOn0x ((toHexPad 16 sci).map hexDigitChar ++ [' ', '\x7d']) := by
    rw [splitOn0x]
    rw [if_pos ⟨rfl, rfl⟩]
  rw [h1, splitOn0x_no_x _ hx_notin]
  simp [List.modifyHead]

theorem startsWith_append (pat r : List Char) :
    startsWithChars pat (pat ++ r) = true := by
  simp [startsWithChars, List.take_left]

theorem pre_split :
    "MACsec \x7b sci: ".toList = "MACsec".toList ++ " \x7b sci: ".toList := by
  decide

theorem hstart_macsec (sci : Nat) :
    startsWithChars "MACsec".toList (FlowId.display (.MACsec sci)) = true := by
  rw [hdisp_macsec, pre_split, List.append_assoc]
  exact startsWith_append _ _

theorem htrim_s1 (sci : Nat) :
    (((toHexPad 16 sci).map hexDigitChar ++ [' ', '\x7d']) : List Char).reverse =
      '\x7d' :: ' ' :: ((toHexPad 16 sci).map hexDigitChar).reverse := by
  simp

theorem htrim_s2 (sci : Nat) :
    trimRevSpaceBrace ('\x7d' :: ' ' :: ((toHexPad 16 sci).map hexDigitChar).reverse) =
      trimRevSpaceBrace (((toHexPad 16 sci).map hexDigitChar).reverse) := by
  rw [trimRevSpaceBrace]
  rw [if_pos ⟨rfl, rfl⟩]

theorem htrim_macsec (sci : Nat) :
    trimEndSpaceBrace ((toHexPad 16 sci).map hexDigitChar ++ [' ', '\x7d']) =
      (toHexPad 16 sci).map hexDigitChar := by
  unfold trimEndSpaceBrace
  rw [htrim_s1, htrim_s2]
  rw [trimRev_not_brace _ ?brace, List.reverse_reverse]
  case brace =>
    intro c hc
    rw [List.mem_reverse] at hc
    simp only [List.mem_map] at hc
    obtain ⟨d, hd, rfl⟩ := hc
    exact hexDigitChar_ne_brace d (toHexPad_lt 16 sci d hd)

theorem hparse_macsec (sci : Nat) (h : sci < 18446744073709551616) :
    fromStrRadix16 ((toHexPad 16 sci).map hexDigitChar) = some sci := by
  have hne : ((toHexPad 16 sci).map hexDigitChar) ≠ [] := by
    intro he
    have hlen := congrArg List.length he
    simp [toHexPad_length] at hlen
  have hhead : ¬ ((toHexPad 16 sci).map hexDigitChar).head? = some '+' := by
    intro hh
    have hmem : '+' ∈ (toHexPad 16 sci).map hexDigitChar :=
      List.mem_of_mem_head? (by simp [hh])
    simp only [List.mem_map] at hmem
    obtain ⟨d, hd, heq⟩ := hmem
    exact hexDigitChar_ne_plus d (toHexPad_lt 16 sci d hd) heq
  have hgo := fromStrRadixGo_hexPad 16 sci 0
    (by simpa using lt_of_le_of_lt (Nat.mod_le sci (16 ^ 16)) h)
  have h16 : (16 : Nat) ^ 16 = 18446744073709551616 := by norm_num
  have hlt : sci < 16 ^ 16 := by rw [h16]; exact h
  unfold fromStrRadix16
  rw [if_neg hhead]
  rw [if_neg (show ¬ ((toHexPad 16 sci).map hexDigitChar).isEmpty = true from by
    simpa using hne)]
  rw [hgo, Nat.mod_eq_of_lt hlt]
  simp

/-- C4 (amended): the MACsec variant round-trips through its textual form —
for every sci below 2^64, FlowId::new of the Display string returns
MACsec with the same sci. IPsec and GenericL3 forms parse back to fixed
placeholders (see the counterexample), so only MACsec round-trips. -/
theorem C4_macsec_roundtrip (sci : Nat) (h : sci < 18446744073709551616) :
    FlowId.new (FlowId.display (.MACsec sci)) = .MACsec sci := by
  unfold FlowId.new
  rw [if_pos (hstart_macsec sci)]
  rw [hsplit_macsec]
  simp only [List.getElem?_cons_succ, List.getElem?_cons_zero]
  rw [htrim_macsec, hparse_macsec sci h]

/-- C4 witness: the round-trip theorem at the hello-world SCI
0x001122334455AABB. -/
theorem C4_witness :
    FlowId.new (FlowId.display (.MACsec 0x001122334455AABB)) =
      .MACsec 0x001122334455AABB :=
  C4_macsec_roundtrip 0x001122334455AABB (by decide)
